import Mathlib

/-
Verification of the form system in src/src/app/page.tsx.

The page implements a login / register / forgot-password form. Its state is
a form mode, a value record formData, and an error map errors keyed by field
name. We embed the state and the event handlers as executable Lean
definitions, translated directly from the source, and prove the stated
properties about them. JavaScript objects used as string-keyed maps are
embedded as association lists with distinct keys; object spread update and
property assignment both become setKeyG, and property lookup becomes
getKeyG (returning none for an absent key, matching undefined).
-/

namespace FormSystem

/-- The three form modes of the page, from the useState at line 464:
login, register and forgot password. -/
inductive FormMode where
  | login
  | register
  | forgot
deriving DecidableEq

/-- A JavaScript value as it appears in change events and in the formData
record: a string, a boolean, an array of strings, or undefined. -/
inductive JSValue where
  | str (s : String)
  | bool (b : Bool)
  | arr (a : List String)
  | undef
deriving DecidableEq

/-- Lookup of a string key in an association list, modelling JavaScript
property access obj[k]: the first binding of k, or none when absent. -/
def getKeyG {α : Type} : List (String × α) → String → Option α
  | [], _ => none
  | p :: rest, k => if p.1 = k then some p.2 else getKeyG rest k

/-- Update of a string key in an association list, modelling both spread
update obj2 = ( ...obj, [k]: v ) and property assignment obj.k = v: the
first binding of k is replaced in place, and an absent key is appended. -/
def setKeyG {α : Type} : List (String × α) → String → α → List (String × α)
  | [], k, v => [(k, v)]
  | p :: rest, k, v => if p.1 = k then (k, v) :: rest else p :: setKeyG rest k v

/-- An ErrMap is the errors object of the page: field name to message. -/
def ErrMap : Type := List (String × String)

/-- A FormDataMap is the formData object of the page viewed as a
string-keyed record, as the change handler accesses it (by computed key). -/
def FormDataMap : Type := List (String × JSValue)

/-- A normalized change event as it reaches the orchestrator (line 480):
the destructured target fields name, value, type and checked. Fields that
may be undefined in JavaScript are Option-valued. -/
structure ChangeEvt where
  name : Option String
  value : JSValue
  type : Option String
  checked : Option Bool
deriving DecidableEq

/-- The value that handleChange stores (line 485): the boolean checked
flag when type is the string checkbox and checked is defined, otherwise
the value field of the event. -/
def storedValue (e : ChangeEvt) : JSValue :=
  match e.type, e.checked with
  | some t, some c => if t = "checkbox" then JSValue.bool c else e.value
  | _, _ => e.value

/-- The error-map part of handleChange (lines 489-491): if errors[name] is
truthy (a binding exists with a non-empty message), the spread update
writes the empty string under that name; otherwise errors is left alone. -/
def handleChangeErrors (errors : ErrMap) (n : String) : ErrMap :=
  match getKeyG errors n with
  | some v => if v = "" then errors else setKeyG errors n ""
  | none => errors

/-- The orchestrator change handler (lines 480-493). The guard if (name)
skips events whose name is undefined or the empty string (both falsy);
otherwise it stores storedValue under name in formData and applies the
error-clearing step to the error map. -/
def handleChange (fd : FormDataMap) (errors : ErrMap) (e : ChangeEvt) :
    FormDataMap × ErrMap :=
  match e.name with
  | none => (fd, errors)
  | some n =>
      if n = "" then (fd, errors)
      else (setKeyG fd n (storedValue e), handleChangeErrors errors n)

/-- Sequential application of a list of change events to the state. -/
def applyChanges : FormDataMap → ErrMap → List ChangeEvt → FormDataMap × ErrMap
  | fd, errors, [] => (fd, errors)
  | fd, errors, e :: rest =>
      applyChanges (handleChange fd errors e).1 (handleChange fd errors e).2 rest

/-- The derived validity flag (line 572): Object.keys(errors).length is 0.
Error maps built by the page bind each key at most once, so the number of
keys is the length of the association list. -/
def isFormValid (errors : ErrMap) : Bool := errors.length == 0

/-- The submit button disabled flag (line 744): the negation of the
derived validity flag. -/
def submitButtonDisabled (errors : ErrMap) : Bool := !(isFormValid errors)

/-- Outcome of the Form wrapper submit handler: whether default browser
navigation was suppressed and whether the supplied handler was invoked. -/
structure SubmitOutcome where
  preventedDefault : Bool
  handlerInvoked : Bool
deriving DecidableEq

/-- The Form wrapper submit handler (lines 448-453): always calls
preventDefault, then invokes onSubmit exactly when isValid and onSubmit
are both truthy. The wrapper has no state and runs no validation. -/
def formHandleSubmit (isValid : Bool) (hasOnSubmit : Bool) : SubmitOutcome :=
  ⟨true, isValid && hasOnSubmit⟩

/-- The orchestrator state that mode transitions touch: the current form
mode and the error map. -/
structure OrchestratorState where
  formType : FormMode
  errors : ErrMap

/-- The Forgot your password? button (lines 729-735): it only calls
setFormType, leaving the error map as it was. -/
def clickForgotPassword (s : OrchestratorState) : OrchestratorState :=
  ⟨FormMode.forgot, s.errors⟩

/-- The Sign up button (lines 801-810): setFormType to register and
setErrors to the empty object. -/
def clickSignUp (s : OrchestratorState) : OrchestratorState :=
  ⟨FormMode.register, []⟩

/-- The Sign in button (lines 817-826): setFormType to login and
setErrors to the empty object. -/
def clickSignIn (s : OrchestratorState) : OrchestratorState :=
  ⟨FormMode.login, []⟩

/-- The Back to login button (lines 832-841): setFormType to login and
setErrors to the empty object. -/
def clickBackToLogin (s : OrchestratorState) : OrchestratorState :=
  ⟨FormMode.login, []⟩

/-- The typed formData record (lines 65-77), as validateForm reads it. -/
structure FormData where
  email : String
  password : String
  confirmPassword : String
  name : String
  gender : String
  role : String
  rememberMe : Bool
  acceptTerms : Bool
  bio : String
  interests : List String
  marketingPreferences : String
deriving DecidableEq

/-- The initial formData of the page (lines 465-477): empty strings, both
booleans false, an empty interests array, and role set to user. -/
def initialFormData : FormData :=
  ⟨"", "", "", "", "", "user", false, false, "", [], ""⟩

/-- The initial formData of the page viewed as a string-keyed record, with
the same fields and defaults as initialFormData. -/
def initialFormDataMap : FormDataMap :=
  [("email", JSValue.str ""), ("password", JSValue.str ""),
   ("confirmPassword", JSValue.str ""), ("name", JSValue.str ""),
   ("gender", JSValue.str ""), ("role", JSValue.str "user"),
   ("rememberMe", JSValue.bool false), ("acceptTerms", JSValue.bool false),
   ("bio", JSValue.str ""), ("interests", JSValue.arr []),
   ("marketingPreferences", JSValue.str "")]

/-- A character matched by the regex class of non-whitespace characters. -/
def nonSpaceChar (c : Char) : Bool := !c.isWhitespace

/-- A non-empty run of non-space characters, one unit of the pattern. -/
def nsRun (x : List Char) : Bool := !x.isEmpty && x.all nonSpaceChar

/-- All decompositions of a list into a prefix-suffix pair. -/
def splitsOf : List Char → List (List Char × List Char)
  | [] => [([], [])]
  | c :: cs => ([], c :: cs) :: (splitsOf cs).map (fun p => (c :: p.1, p.2))

/-- Whether a word is matched in full by the email pattern of line 501:
a decomposition into a non-space run, an at sign, a non-space run, a dot,
and a non-space run. -/
def emailFullMatch (w : List Char) : Bool :=
  (splitsOf w).any (fun p =>
    nsRun p.1 &&
      (match p.2 with
       | '@' :: b2 =>
           (splitsOf b2).any (fun q =>
             nsRun q.1 &&
               (match q.2 with
                | '.' :: e => nsRun e
                | _ => false))
       | _ => false))

/-- All prefixes of a list of characters. -/
def prefixesOf : List Char → List (List Char)
  | [] => [[]]
  | c :: cs => [] :: (prefixesOf cs).map (fun p => c :: p)

/-- All suffixes of a list of characters. -/
def suffixesOf : List Char → List (List Char)
  | [] => [[]]
  | c :: cs => (c :: cs) :: suffixesOf cs

/-- All contiguous substrings of a list of characters. -/
def substringsOf (l : List Char) : List (List Char) :=
  (suffixesOf l).foldr (fun suf acc => prefixesOf suf ++ acc) []

/-- The unanchored regex test of line 501 on the email string: true when
some contiguous substring is matched in full by the email pattern, which
is the semantics of the test method of a JavaScript regular expression. -/
def emailRegexTest (s : String) : Bool :=
  (substringsOf s.toList).any emailFullMatch

/-- The email clause of validateForm (lines 498-503): a required message
on the empty string, else an invalid message when the regex test fails. -/
def emailStep (fd : FormData) (e : ErrMap) : ErrMap :=
  if fd.email = "" then setKeyG e "email" "Email is required"
  else if emailRegexTest fd.email = false then setKeyG e "email" "Email is invalid"
  else e

/-- The password clause of validateForm (lines 505-510): required outside
forgot mode when empty, else a length message in register mode when the
password has fewer than 8 characters. -/
def passwordStep (mode : FormMode) (fd : FormData) (e : ErrMap) : ErrMap :=
  if mode ≠ FormMode.forgot ∧ fd.password = "" then
    setKeyG e "password" "Password is required"
  else if mode = FormMode.register ∧ fd.password.length < 8 then
    setKeyG e "password" "Password must be at least 8 characters"
  else e

/-- The confirm-password clause of validateForm (lines 512-515): a
mismatch message in register mode when the two strings differ. -/
def confirmStep (mode : FormMode) (fd : FormData) (e : ErrMap) : ErrMap :=
  if mode = FormMode.register ∧ fd.password ≠ fd.confirmPassword then
    setKeyG e "confirmPassword" "Passwords do not match"
  else e

/-- The name clause of validateForm (lines 517-519). -/
def nameStep (mode : FormMode) (fd : FormData) (e : ErrMap) : ErrMap :=
  if mode = FormMode.register ∧ fd.name = "" then
    setKeyG e "name" "Name is required"
  else e

/-- The gender clause of validateForm (lines 522-525). -/
def genderStep (mode : FormMode) (fd : FormData) (e : ErrMap) : ErrMap :=
  if mode = FormMode.register ∧ fd.gender = "" then
    setKeyG e "gender" "Gender is required"
  else e

/-- The accept-terms clause of validateForm (lines 527-530). -/
def termsStep (mode : FormMode) (fd : FormData) (e : ErrMap) : ErrMap :=
  if mode = FormMode.register ∧ fd.acceptTerms = false then
    setKeyG e "acceptTerms" "You must accept the terms"
  else e

/-- The error map built by validateForm (lines 495-534): the six clauses
applied in source order to a fresh empty object. -/
def validateForm (mode : FormMode) (fd : FormData) : ErrMap :=
  termsStep mode fd (genderStep mode fd (nameStep mode fd
    (confirmStep mode fd (passwordStep mode fd (emailStep fd [])))))

/-- An option of a choice control (lines 20-23): a value and a label. -/
structure OptionItem where
  value : String
  label : String
deriving DecidableEq

/-- The role options of the page (lines 545-549). -/
def roleOptions : List OptionItem :=
  [⟨"user", "Regular User"⟩, ⟨"admin", "Administrator"⟩, ⟨"editor", "Content Editor"⟩]

/-- Whether the second character list is a starting segment of the first. -/
def seqStartsWith : List Char → List Char → Bool
  | _, [] => true
  | [], _ :: _ => false
  | c :: cs, d :: ds => c == d && seqStartsWith cs ds

/-- Whether the second character list occurs contiguously in the first. -/
def seqContains : List Char → List Char → Bool
  | [], sub => sub.isEmpty
  | c :: cs, sub => seqStartsWith (c :: cs) sub || seqContains cs sub

/-- The includes method of JavaScript strings: substring containment. -/
def strIncludes (s sub : String) : Bool := seqContains s.toList sub.toList

/-- The toLowerCase method of JavaScript strings, on the ASCII labels and
search terms of the page: each character lowered in place. -/
def toLowerStr (s : String) : String := String.mk (s.data.map Char.toLower)

/-- The filter predicate of line 137: the lowercased label contains the
lowercased search term. -/
def labelMatches (searchTerm : String) (o : OptionItem) : Bool :=
  strIncludes (toLowerStr o.label) (toLowerStr searchTerm)

/-- The filteredOptions value of the Select (lines 136-138): when search
is enabled, the options whose label matches; otherwise all options. -/
def filteredOptions (enableSearch : Bool) (options : List OptionItem) (searchTerm : String) :
    List OptionItem :=
  if enableSearch then options.filter (labelMatches searchTerm) else options

/-- What the dropdown list renders: either the filtered option rows or the
single placeholder row. -/
inductive SelectListView where
  | optionRows (opts : List OptionItem)
  | noOptionsRow
deriving DecidableEq

/-- The rendered dropdown list (lines 197-217): the filtered options when
there is at least one, else the non-selectable No options found row. -/
def selectListView (enableSearch : Bool) (options : List OptionItem) (searchTerm : String) :
    SelectListView :=
  if 0 < (filteredOptions enableSearch options searchTerm).length
  then SelectListView.optionRows (filteredOptions enableSearch options searchTerm)
  else SelectListView.noOptionsRow

/-- The new membership array computed by the CheckboxGroup change handler
(lines 311-319): append the toggled value when the box became checked,
else remove every occurrence of it. -/
def checkboxGroupNewValues (value : List String) (optionValue : String) (checked : Bool) :
    List String :=
  if checked then value ++ [optionValue] else value.filter (fun v => v != optionValue)

/-- The event the CheckboxGroup emits (lines 322-328): the entire new
array under the group name, tagged with type checkbox and no checked
flag. -/
def checkboxGroupEmittedEvt (nm : Option String) (value : List String) (optionValue : String)
    (checked : Bool) : ChangeEvt :=
  ⟨nm, JSValue.arr (checkboxGroupNewValues value optionValue checked), some "checkbox", none⟩

/-- Toggling an option in the rendered group: the box for an option is
checked exactly when the option is in the array (line 346), so a click
reports the negation of current membership as the new checked flag. -/
def checkboxGroupToggle (value : List String) (optionValue : String) : List String :=
  checkboxGroupNewValues value optionValue (!(value.contains optionValue))

theorem getKeyG_setKeyG_self {α : Type} (m : List (String × α)) (k : String) (v : α) :
    getKeyG (setKeyG m k v) k = some v := by
  induction m with
  | nil => simp [setKeyG, getKeyG]
  | cons p rest ih =>
      by_cases h : p.1 = k
      · simp [setKeyG, getKeyG, h]
      · simp [setKeyG, getKeyG, h, ih]

theorem getKeyG_setKeyG_ne {α : Type} (m : List (String × α)) (k k2 : String) (v : α)
    (h : k2 ≠ k) : getKeyG (setKeyG m k v) k2 = getKeyG m k2 := by
  induction m with
  | nil => simp [setKeyG, getKeyG, Ne.symm h]
  | cons p rest ih =>
      by_cases hp : p.1 = k
      · simp [setKeyG, getKeyG, hp, Ne.symm h]
      · simp [setKeyG, getKeyG, hp, ih]

theorem setKeyG_length_of_mem {α : Type} (m : List (String × α)) (k : String) (v : α)
    (h : (getKeyG m k).isSome) : (setKeyG m k v).length = m.length := by
  induction m with
  | nil => simp [getKeyG] at h
  | cons p rest ih =>
      by_cases hp : p.1 = k
      · simp [setKeyG, hp]
      · simp [getKeyG, hp] at h
        simp [setKeyG, hp, ih h]

theorem handleChangeErrors_length (errors : ErrMap) (n : String) :
    (handleChangeErrors errors n).length = errors.length := by
  unfold handleChangeErrors
  cases hg : getKeyG errors n with
  | none => rfl
  | some v =>
      by_cases hv : v = ""
      · simp [hv]
      · simp [hv, setKeyG_length_of_mem errors n "" (by simp [hg])]

theorem handleChange_errors_length (fd : FormDataMap) (errors : ErrMap) (e : ChangeEvt) :
    ((handleChange fd errors e).2).length = errors.length := by
  unfold handleChange
  cases e.name with
  | none => rfl
  | some n =>
      by_cases hn : n = ""
      · simp [hn]
      · simp [hn, handleChangeErrors_length]

theorem applyChanges_errors_length (evts : List ChangeEvt) (fd : FormDataMap) (errors : ErrMap) :
    ((applyChanges fd errors evts).2).length = errors.length := by
  induction evts generalizing fd errors with
  | nil => rfl
  | cons e rest ih =>
      simp only [applyChanges]
      rw [ih, handleChange_errors_length]

theorem getKeyG_ite_set {α : Type} (c : Prop) [Decidable c] (m : List (String × α))
    (k k2 : String) (v : α) (h : k2 ≠ k) :
    getKeyG (if c then setKeyG m k v else m) k2 = getKeyG m k2 := by
  split
  · exact getKeyG_setKeyG_ne m k k2 v h
  · rfl

theorem getKeyG_emailStep_ne (fd : FormData) (e : ErrMap) (k : String) (h : k ≠ "email") :
    getKeyG (emailStep fd e) k = getKeyG e k := by
  unfold emailStep
  split
  · exact getKeyG_setKeyG_ne e "email" k _ h
  · exact getKeyG_ite_set _ e "email" k _ h

theorem getKeyG_passwordStep_ne (mode : FormMode) (fd : FormData) (e : ErrMap)
    (k : String) (h : k ≠ "password") :
    getKeyG (passwordStep mode fd e) k = getKeyG e k := by
  unfold passwordStep
  split
  · exact getKeyG_setKeyG_ne e "password" k _ h
  · exact getKeyG_ite_set _ e "password" k _ h

theorem getKeyG_confirmStep_ne (mode : FormMode) (fd : FormData) (e : ErrMap)
    (k : String) (h : k ≠ "confirmPassword") :
    getKeyG (confirmStep mode fd e) k = getKeyG e k :=
  getKeyG_ite_set _ e "confirmPassword" k _ h

theorem getKeyG_nameStep_ne (mode : FormMode) (fd : FormData) (e : ErrMap)
    (k : String) (h : k ≠ "name") :
    getKeyG (nameStep mode fd e) k = getKeyG e k :=
  getKeyG_ite_set _ e "name" k _ h

theorem getKeyG_genderStep_ne (mode : FormMode) (fd : FormData) (e : ErrMap)
    (k : String) (h : k ≠ "gender") :
    getKeyG (genderStep mode fd e) k = getKeyG e k :=
  getKeyG_ite_set _ e "gender" k _ h

theorem getKeyG_termsStep_ne (mode : FormMode) (fd : FormData) (e : ErrMap)
    (k : String) (h : k ≠ "acceptTerms") :
    getKeyG (termsStep mode fd e) k = getKeyG e k :=
  getKeyG_ite_set _ e "acceptTerms" k _ h

theorem getKeyG_passwordStep_self (mode : FormMode) (fd : FormData) (e : ErrMap) :
    getKeyG (passwordStep mode fd e) "password" =
      if mode ≠ FormMode.forgot ∧ fd.password = "" then some "Password is required"
      else if mode = FormMode.register ∧ fd.password.length < 8 then
        some "Password must be at least 8 characters"
      else getKeyG e "password" := by
  unfold passwordStep
  by_cases h1 : mode ≠ FormMode.forgot ∧ fd.password = ""
  · rw [if_pos h1, if_pos h1, getKeyG_setKeyG_self]
  · rw [if_neg h1, if_neg h1]
    by_cases h2 : mode = FormMode.register ∧ fd.password.length < 8
    · rw [if_pos h2, if_pos h2, getKeyG_setKeyG_self]
    · rw [if_neg h2, if_neg h2]

/-- C1, counterexample. The claim says a change event carrying the name of
a field with an error entry removes that key, shrinking the map. At the
concrete state where errors binds email to its required message, the
change event for email leaves the map at length 1 with email now bound to
the empty string: the key is not removed. -/
theorem change_event_error_key_not_removed :
    ((handleChange ([] : FormDataMap) ([("email", "Email is required")] : ErrMap)
        ⟨some "email", JSValue.str "a", none, none⟩).2).length = 1 ∧
    getKeyG ((handleChange ([] : FormDataMap) ([("email", "Email is required")] : ErrMap)
        ⟨some "email", JSValue.str "a", none, none⟩).2) "email" = some "" := by
  constructor
  · rfl
  · rfl

/-- C1, amended. A single change event carrying the name of a field whose
error entry is non-empty overwrites that entry with the empty string (so
its message no longer renders), leaves every other entry unchanged, and
leaves the number of keys unchanged; validation is not re-run. -/
theorem change_event_blanks_error_entry (fd : FormDataMap) (errors : ErrMap) (e : ChangeEvt)
    (n : String) (hname : e.name = some n) (hn : n ≠ "") (v : String)
    (hv : getKeyG errors n = some v) (hvne : v ≠ "") :
    getKeyG (handleChange fd errors e).2 n = some "" ∧
    (∀ k, k ≠ n → getKeyG (handleChange fd errors e).2 k = getKeyG errors k) ∧
    ((handleChange fd errors e).2).length = errors.length := by
  have h2 : (handleChange fd errors e).2 = setKeyG errors n "" := by
    unfold handleChange
    rw [hname]
    simp [hn, handleChangeErrors, hv, hvne]
  refine ⟨?_, ?_, handleChange_errors_length fd errors e⟩
  · rw [h2]
    exact getKeyG_setKeyG_self errors n ""
  · intro k hk
    rw [h2]
    exact getKeyG_setKeyG_ne errors n k "" hk

/-- C1, witness for the amended statement at a concrete state with two
error entries: the edited field is blanked and the other entry is kept. -/
theorem change_event_blanks_error_entry_witness :
    getKeyG (handleChange ([] : FormDataMap)
        ([("email", "Email is required"), ("password", "Password is required")] : ErrMap)
        ⟨some "email", JSValue.str "a", none, none⟩).2 "email" = some "" ∧
    getKeyG (handleChange ([] : FormDataMap)
        ([("email", "Email is required"), ("password", "Password is required")] : ErrMap)
        ⟨some "email", JSValue.str "a", none, none⟩).2 "password" =
      some "Password is required" := by
  have h := change_event_blanks_error_entry ([] : FormDataMap)
      ([("email", "Email is required"), ("password", "Password is required")] : ErrMap)
      ⟨some "email", JSValue.str "a", none, none⟩ "email" rfl (by decide)
      "Email is required" rfl (by decide)
  refine ⟨h.1, ?_⟩
  rw [h.2.1 "password" (by decide)]
  rfl

/-- C2, counterexample. The claim says every mode transition resets the
error map to empty. The Login to ForgotPassword transition does not: with
an email error present, clicking the forgot-password link switches the
mode but keeps the error map intact. -/
theorem forgot_transition_keeps_errors :
    (clickForgotPassword ⟨FormMode.login, [("email", "Email is required")]⟩).formType =
      FormMode.forgot ∧
    (clickForgotPassword ⟨FormMode.login, [("email", "Email is required")]⟩).errors =
      [("email", "Email is required")] ∧
    ((clickForgotPassword ⟨FormMode.login, [("email", "Email is required")]⟩).errors).length ≠ 0 := by
  refine ⟨rfl, rfl, by decide⟩

/-- C2, amended. For every prior error map, the Login to Register,
Register to Login and ForgotPassword to Login transitions reset the error
map to empty, while the Login to ForgotPassword transition switches the
mode but leaves the error map unchanged. -/
theorem mode_transitions_error_reset (errors : ErrMap) :
    (clickSignUp ⟨FormMode.login, errors⟩).formType = FormMode.register ∧
    (clickSignUp ⟨FormMode.login, errors⟩).errors = [] ∧
    (clickSignIn ⟨FormMode.register, errors⟩).formType = FormMode.login ∧
    (clickSignIn ⟨FormMode.register, errors⟩).errors = [] ∧
    (clickBackToLogin ⟨FormMode.forgot, errors⟩).formType = FormMode.login ∧
    (clickBackToLogin ⟨FormMode.forgot, errors⟩).errors = [] ∧
    (clickForgotPassword ⟨FormMode.login, errors⟩).formType = FormMode.forgot ∧
    (clickForgotPassword ⟨FormMode.login, errors⟩).errors = errors :=
  ⟨rfl, rfl, rfl, rfl, rfl, rfl, rfl, rfl⟩

/-- C2, witness for the amended statement at a concrete error map. -/
theorem mode_transitions_error_reset_witness :
    (clickSignUp ⟨FormMode.login, [("email", "Email is required")]⟩).errors = [] :=
  (mode_transitions_error_reset [("email", "Email is required")]).2.1

/-- C3: once the error map has at least one key, no sequence of change
events makes the derived validity flag true again, because the change
handler blanks entries instead of deleting keys; hence the submit button
stays disabled and the Form gate never invokes the submit handler. -/
theorem errors_stuck_nonempty_after_changes (fd : FormDataMap) (errors : ErrMap)
    (h : 0 < errors.length) (evts : List ChangeEvt) :
    isFormValid (applyChanges fd errors evts).2 = false ∧
    submitButtonDisabled (applyChanges fd errors evts).2 = true ∧
    (formHandleSubmit (isFormValid (applyChanges fd errors evts).2) true).handlerInvoked =
      false := by
  have hv : isFormValid (applyChanges fd errors evts).2 = false := by
    unfold isFormValid
    rw [applyChanges_errors_length evts fd errors]
    exact beq_eq_false_iff_ne.mpr (Nat.pos_iff_ne_zero.mp h)
  refine ⟨hv, ?_, ?_⟩
  · unfold submitButtonDisabled
    rw [hv]
    rfl
  · rw [hv]
    rfl

/-- C3, witness at a concrete state left by a failed validation pass and a
concrete change event on the offending field. -/
theorem errors_stuck_nonempty_after_changes_witness :
    isFormValid (applyChanges ([] : FormDataMap) ([("email", "Email is required")] : ErrMap)
      [⟨some "email", JSValue.str "a@b.c", none, none⟩]).2 = false :=
  (errors_stuck_nonempty_after_changes ([] : FormDataMap)
    ([("email", "Email is required")] : ErrMap) (by decide)
    [⟨some "email", JSValue.str "a@b.c", none, none⟩]).1

/-- C7: for every value of the validity flag, the Form wrapper suppresses
default navigation and invokes the supplied submit handler exactly when
the flag is true. The wrapper is a pure function of the flag: it holds no
state and runs no validation. -/
theorem form_wrapper_submit_gate (isValid : Bool) :
    (formHandleSubmit isValid true).preventedDefault = true ∧
    ((formHandleSubmit isValid true).handlerInvoked = true ↔ isValid = true) := by
  cases isValid <;> exact ⟨rfl, by simp [formHandleSubmit]⟩

/-- C7, witness: with the flag true the handler is invoked, with the flag
false navigation is still suppressed. -/
theorem form_wrapper_submit_gate_witness :
    (formHandleSubmit true true).handlerInvoked = true ∧
    (formHandleSubmit false true).preventedDefault = true :=
  ⟨(form_wrapper_submit_gate true).2.mpr rfl, (form_wrapper_submit_gate false).1⟩

/-- C4: in every mode, validation of an empty email yields the required
message, a non-empty email failing the unanchored non-space at non-space
dot non-space pattern yields the invalid message, and any other email
yields no email error. -/
theorem email_validation_spec (mode : FormMode) (fd : FormData) :
    getKeyG (validateForm mode fd) "email" =
      if fd.email = "" then some "Email is required"
      else if emailRegexTest fd.email = false then some "Email is invalid"
      else none := by
  unfold validateForm
  rw [getKeyG_termsStep_ne _ _ _ _ (by decide), getKeyG_genderStep_ne _ _ _ _ (by decide),
      getKeyG_nameStep_ne _ _ _ _ (by decide), getKeyG_confirmStep_ne _ _ _ _ (by decide),
      getKeyG_passwordStep_ne _ _ _ _ (by decide)]
  unfold emailStep
  by_cases h1 : fd.email = ""
  · rw [if_pos h1, if_pos h1]
    exact getKeyG_setKeyG_self [] "email" "Email is required"
  · rw [if_neg h1, if_neg h1]
    by_cases h2 : emailRegexTest fd.email = false
    · rw [if_pos h2, if_pos h2]
      exact getKeyG_setKeyG_self [] "email" "Email is invalid"
    · rw [if_neg h2, if_neg h2]
      rfl

/-- C4, witness: the example email bad-format is non-empty, fails the
pattern, and validation in login mode yields the invalid message. -/
theorem email_validation_spec_witness :
    getKeyG (validateForm FormMode.login
      ⟨"bad-format", "pw", "", "", "", "user", false, false, "", [], ""⟩) "email" =
      some "Email is invalid" := by
  rw [email_validation_spec]
  decide

/-- C5: the password field is required in login and register mode when
empty; in register mode a non-empty password shorter than 8 characters
gets the length message (never replacing the required message); in forgot
mode the password is never validated; a non-empty password of at least 8
characters never gets a password error. -/
theorem password_validation_spec (mode : FormMode) (fd : FormData) :
    (mode ≠ FormMode.forgot → fd.password = "" →
        getKeyG (validateForm mode fd) "password" = some "Password is required") ∧
    (mode = FormMode.register → fd.password ≠ "" → fd.password.length < 8 →
        getKeyG (validateForm mode fd) "password" =
          some "Password must be at least 8 characters") ∧
    (mode = FormMode.forgot → getKeyG (validateForm mode fd) "password" = none) ∧
    (fd.password ≠ "" → 8 ≤ fd.password.length →
        getKeyG (validateForm mode fd) "password" = none) := by
  have hbase : getKeyG (validateForm mode fd) "password" =
      if mode ≠ FormMode.forgot ∧ fd.password = "" then some "Password is required"
      else if mode = FormMode.register ∧ fd.password.length < 8 then
        some "Password must be at least 8 characters"
      else none := by
    unfold validateForm
    rw [getKeyG_termsStep_ne _ _ _ _ (by decide), getKeyG_genderStep_ne _ _ _ _ (by decide),
        getKeyG_nameStep_ne _ _ _ _ (by decide), getKeyG_confirmStep_ne _ _ _ _ (by decide),
        getKeyG_passwordStep_self, getKeyG_emailStep_ne _ _ _ (by decide)]
    rfl
  refine ⟨?_, ?_, ?_, ?_⟩
  · intro h1 h2
    rw [hbase, if_pos ⟨h1, h2⟩]
  · intro h1 h2 h3
    rw [hbase, if_neg (fun hc => h2 hc.2), if_pos ⟨h1, h3⟩]
  · intro h1
    rw [hbase, if_neg (fun hc => hc.1 h1),
        if_neg (fun hc => by rw [h1] at hc; exact FormMode.noConfusion hc.1)]
  · intro h1 h2
    rw [hbase, if_neg (fun hc => h1 hc.2),
        if_neg (fun hc => absurd hc.2 (Nat.not_lt.mpr h2))]

/-- C5, witness: in register mode the 6-character password short1 with
matching confirmation gets the length message. -/
theorem password_validation_spec_witness :
    getKeyG (validateForm FormMode.register
      ⟨"a@b.c", "short1", "short1", "Jo", "male", "user", false, true, "", [], ""⟩)
      "password" = some "Password must be at least 8 characters" :=
  (password_validation_spec FormMode.register
      ⟨"a@b.c", "short1", "short1", "Jo", "male", "user", false, true, "", [], ""⟩).2.1
    rfl (by decide) (by decide)

/-- C6: validation yields the confirm-password mismatch message exactly
when the mode is register and confirmPassword differs from password as a
string; in every other case the confirmPassword key is absent. -/
theorem confirm_password_validation_spec (mode : FormMode) (fd : FormData) :
    getKeyG (validateForm mode fd) "confirmPassword" =
      if mode = FormMode.register ∧ fd.password ≠ fd.confirmPassword then
        some "Passwords do not match"
      else none := by
  unfold validateForm
  rw [getKeyG_termsStep_ne _ _ _ _ (by decide), getKeyG_genderStep_ne _ _ _ _ (by decide),
      getKeyG_nameStep_ne _ _ _ _ (by decide)]
  unfold confirmStep
  by_cases h : mode = FormMode.register ∧ fd.password ≠ fd.confirmPassword
  · rw [if_pos h, if_pos h]
    exact getKeyG_setKeyG_self _ "confirmPassword" "Passwords do not match"
  · rw [if_neg h, if_neg h, getKeyG_passwordStep_ne _ _ _ _ (by decide),
        getKeyG_emailStep_ne _ _ _ (by decide)]
    rfl

/-- C6, witness: the example passwords abc12345 and abc12346 in register
mode yield the mismatch message. -/
theorem confirm_password_validation_spec_witness :
    getKeyG (validateForm FormMode.register
      ⟨"a@b.c", "abc12345", "abc12346", "Jo", "male", "user", false, true, "", [], ""⟩)
      "confirmPassword" = some "Passwords do not match" := by
  rw [confirm_password_validation_spec]
  decide

/-- C8: for a normalized change event whose name passes the truthiness
guard (defined and non-empty), the orchestrator stores the boolean checked
flag under the name exactly when the event type is checkbox and checked is
defined, stores the value field otherwise, and leaves every other field of
the value map unchanged. -/
theorem change_event_stores_checked_or_value (fd : FormDataMap) (errors : ErrMap)
    (e : ChangeEvt) (n : String) (hname : e.name = some n) (hn : n ≠ "") :
    (∀ c : Bool, e.type = some "checkbox" → e.checked = some c →
        getKeyG (handleChange fd errors e).1 n = some (JSValue.bool c)) ∧
    ((e.type ≠ some "checkbox" ∨ e.checked = none) →
        getKeyG (handleChange fd errors e).1 n = some e.value) ∧
    (∀ k, k ≠ n → getKeyG (handleChange fd errors e).1 k = getKeyG fd k) := by
  have h1 : (handleChange fd errors e).1 = setKeyG fd n (storedValue e) := by
    unfold handleChange
    rw [hname]
    simp [hn]
  refine ⟨?_, ?_, ?_⟩
  · intro c ht hc
    rw [h1, getKeyG_setKeyG_self]
    simp [storedValue, ht, hc]
  · intro hor
    rw [h1, getKeyG_setKeyG_self]
    cases ht : e.type with
    | none => simp [storedValue, ht]
    | some t =>
        cases hc : e.checked with
        | none => simp [storedValue, ht, hc]
        | some c =>
            have htc : t ≠ "checkbox" := by
              rcases hor with h | h
              · intro heq
                exact h (by rw [ht, heq])
              · rw [hc] at h
                exact Option.noConfusion h
            simp [storedValue, ht, hc, htc]
  · intro k hk
    rw [h1]
    exact getKeyG_setKeyG_ne fd n k _ hk

/-- C8, witness: a toggle-shaped event (type checkbox, checked true, no
value) on rememberMe stores the boolean true under rememberMe and keeps
the email field of the initial value map. -/
theorem change_event_stores_checked_or_value_witness :
    getKeyG (handleChange initialFormDataMap ([] : ErrMap)
        ⟨some "rememberMe", JSValue.undef, some "checkbox", some true⟩).1 "rememberMe" =
      some (JSValue.bool true) ∧
    getKeyG (handleChange initialFormDataMap ([] : ErrMap)
        ⟨some "rememberMe", JSValue.undef, some "checkbox", some true⟩).1 "email" =
      some (JSValue.str "") := by
  have h := change_event_stores_checked_or_value initialFormDataMap ([] : ErrMap)
      ⟨some "rememberMe", JSValue.undef, some "checkbox", some true⟩ "rememberMe"
      rfl (by decide)
  refine ⟨h.1 true rfl rfl, ?_⟩
  rw [h.2.2 "email" (by decide)]
  rfl

/-- C9: the CheckboxGroup emits the entire new array tagged with type
checkbox, where checking appends the toggled value and unchecking removes
every occurrence of it; toggling an absent option appends it and toggling
it again restores the original array, as in the technology and music
example. -/
theorem checkbox_group_toggle_spec (value : List String) (opt : String) :
    (∀ nm checked, checkboxGroupEmittedEvt nm value opt checked =
        ⟨nm, JSValue.arr (if checked then value ++ [opt]
          else value.filter (fun v => v != opt)), some "checkbox", none⟩) ∧
    (value.contains opt = false →
        checkboxGroupToggle value opt = value ++ [opt] ∧
        checkboxGroupToggle (checkboxGroupToggle value opt) opt = value) ∧
    (checkboxGroupToggle ["technology"] "music" = ["technology", "music"] ∧
     checkboxGroupToggle (checkboxGroupToggle ["technology"] "music") "music" =
       ["technology"]) := by
  refine ⟨fun nm checked => rfl, ?_, by decide, by decide⟩
  intro h
  have hmem : opt ∉ value := by
    intro hm
    rw [(by simp : (value.contains opt = true ↔ opt ∈ value)).mpr hm] at h
    exact Bool.noConfusion h
  have hfirst : checkboxGroupToggle value opt = value ++ [opt] := by
    unfold checkboxGroupToggle checkboxGroupNewValues
    rw [h]
    rfl
  refine ⟨hfirst, ?_⟩
  rw [hfirst]
  unfold checkboxGroupToggle checkboxGroupNewValues
  have hc : (value ++ [opt]).contains opt = true := by simp
  rw [hc]
  have hstep : (value ++ [opt]).filter (fun v => v != opt) =
      value.filter (fun v => v != opt) ++ [opt].filter (fun v => v != opt) :=
    List.filter_append value [opt]
  have hone : ([opt].filter (fun v => v != opt)) = [] := by simp
  have hself : value.filter (fun v => v != opt) = value :=
    List.filter_eq_self.mpr (fun b hb => by simp; exact fun heq => hmem (heq ▸ hb))
  simp only [Bool.not_true, Bool.false_eq_true, if_false, hstep, hone, hself, List.append_nil]

/-- C9, witness: the concrete round trip of the example, via the general
statement. -/
theorem checkbox_group_toggle_spec_witness :
    checkboxGroupToggle (checkboxGroupToggle ["technology"] "music") "music" =
      ["technology"] :=
  ((checkbox_group_toggle_spec ["technology"] "music").2.1 (by decide)).2

/-- C10: with search enabled, the displayed option list is exactly the
options whose lowercased label contains the lowercased search string, in
their original order, and the placeholder row is rendered exactly when the
filtered list is empty; the search term admin against the role options
yields exactly the Administrator entry, and an unmatched term yields the
placeholder. -/
theorem select_search_filtering_spec (options : List OptionItem) (term : String) :
    (∀ o, o ∈ filteredOptions true options term ↔
        o ∈ options ∧ strIncludes (toLowerStr o.label) (toLowerStr term) = true) ∧
    (filteredOptions true options term).Sublist options ∧
    (selectListView true options term = SelectListView.noOptionsRow ↔
        filteredOptions true options term = []) ∧
    selectListView true roleOptions "admin" =
      SelectListView.optionRows [⟨"admin", "Administrator"⟩] ∧
    selectListView true roleOptions "zzz" = SelectListView.noOptionsRow := by
  refine ⟨?_, ?_, ?_, by decide, by decide⟩
  · intro o
    simp [filteredOptions, labelMatches, List.mem_filter]
  · simp only [filteredOptions, if_true]
    exact List.filter_sublist options
  · unfold selectListView
    by_cases h : 0 < (filteredOptions true options term).length
    · rw [if_pos h]
      constructor
      · intro hco
        exact SelectListView.noConfusion hco
      · intro he
        rw [he] at h
        exact absurd h (by decide)
    · rw [if_neg h]
      have he : filteredOptions true options term = [] :=
        List.length_eq_zero.mp (Nat.le_zero.mp (Nat.not_lt.mp h))
      simp [he]

/-- C10, witness: the concrete admin search of the example, via the
general statement. -/
theorem select_search_filtering_spec_witness :
    selectListView true roleOptions "admin" =
      SelectListView.optionRows [⟨"admin", "Administrator"⟩] :=
  (select_search_filtering_spec roleOptions "admin").2.2.2.1

end FormSystem